import Mathlib

/-!
Verification of `src/common/Cryptography/CryptoHash.h` (TrinityCore):
the generic streaming digest context `Trinity::Impl::GenericHash` and its
four instantiations `Trinity::Crypto::MD5 / SHA1 / SHA256 / SHA512`.

The underlying OpenSSL EVP primitive library is an external black box; it is
modelled here from its contract as stated by the specification (section 6):
per algorithm there is an opaque streaming-engine allocation/free pair and
init/update/finalize/duplicate operations, which must be invoked in the
exact order allocate, then init, then any number of updates, then finalize,
with duplicate usable at any point after init.  An allocated-but-uninitialized
engine context therefore reports failure (a result code other than 1) when
update, finalize or duplicate-from is attempted on it, and a context that has
been initialized for a message-digest algorithm accumulates exactly the bytes
fed to it, the final digest being a function (the algorithm's mathematics,
out of scope) of the accumulated byte sequence.

Fatal assertions (the `ASSERT` macro from `Errors.h`, which halts the
process) are modelled by the `Except FatalAssert` codomain: `.error
.assertFailed` is the halt; it is not an ordinary error value and carries no
payload a caller could handle.
-/

set_option autoImplicit false

namespace Trinity

/-- A byte (`uint8`). -/
abbrev Byte := UInt8

/-- Model of OpenSSL `EVP_MD const*`: the identity of one message-digest
algorithm.  Its mathematics is a black box, modelled as an arbitrary function
from the full accumulated message to the digest bytes. -/
structure EVP_MD where
  hash : List Byte → List Byte

/-- State of one `EVP_MD_CTX*` engine context.
`uninit` is the state right after `EVP_MD_CTX_new` (allocated, no digest
algorithm bound); `ready md acc` is a context initialized for algorithm `md`
that has accumulated the byte sequence `acc` since its last init. -/
inductive EVPCtxState where
  | uninit
  | ready (md : EVP_MD) (acc : List Byte)

namespace Impl

/-- `GenericHashImpl::MakeCTX()` = `EVP_MD_CTX_new()`: a freshly allocated,
not yet initialized engine context. -/
def GenericHashImpl.MakeCTX : EVPCtxState := .uninit

/-- `EVP_DigestInit_ex(ctx, md, nullptr)`: binds the algorithm and resets
accumulation; returns the new context state and the result code. -/
def EVP_DigestInit_ex (md : EVP_MD) (_ctx : EVPCtxState) : EVPCtxState × Int :=
  (.ready md [], 1)

/-- `EVP_DigestUpdate(ctx, data, len)`: appends `data` to the accumulated
message.  Fails (result code 0) on a context that was never initialized. -/
def EVP_DigestUpdate (ctx : EVPCtxState) (data : List Byte) : EVPCtxState × Int :=
  match ctx with
  | .uninit => (.uninit, 0)
  | .ready md acc => (.ready md (acc ++ data), 1)

/-- Outcome of `EVP_DigestFinal_ex`: the context, the digest bytes written
out, the reported digest length, and the result code. -/
structure FinalOut where
  ctx : EVPCtxState
  out : List Byte
  len : Nat
  result : Int

/-- `EVP_DigestFinal_ex(ctx, md_value, &length)`: computes the digest of the
accumulated message with the bound algorithm and reports its length.  Fails
(result code 0) on a context that was never initialized. -/
def EVP_DigestFinal_ex (ctx : EVPCtxState) : FinalOut :=
  match ctx with
  | .uninit => ⟨.uninit, [], 0, 0⟩
  | .ready md acc => ⟨.ready md acc, md.hash acc, (md.hash acc).length, 1⟩

/-- `EVP_MD_CTX_copy_ex(dst, src)`: duplicates the full streaming state of
`src` into `dst`.  Fails (result code 0) when `src` was never initialized. -/
def EVP_MD_CTX_copy_ex (dst src : EVPCtxState) : EVPCtxState × Int :=
  match src with
  | .uninit => (dst, 0)
  | .ready md acc => (.ready md acc, 1)

/-- The fatal halt performed by the `ASSERT` macro on a failed check.  It is
the sole inhabitant: no ordinary error value ever reaches a caller. -/
inductive FatalAssert where
  | assertFailed
deriving DecidableEq, Repr

/-- The two template parameters of `GenericHash<HashCreator, DigestLength>`:
what `HashCreator()` returns, and the declared digest length. -/
structure HashParams where
  HashCreator : EVP_MD
  DIGEST_LENGTH : Nat

/-- The data members of `GenericHash`: the owned engine context `_ctx` and
the stored digest `_digest` (a `std::array<uint8, DIGEST_LENGTH>`, modelled
as its byte list; its default value `Digest{}` is all zeroes). -/
structure GenericHash where
  _ctx : EVPCtxState
  _digest : List Byte

/-- The default-constructed `Digest{}`: a zero-filled array of the declared
length. -/
def zeroDigest (P : HashParams) : List Byte :=
  List.replicate P.DIGEST_LENGTH 0

/-- `GenericHash()`: `_ctx(GenericHashImpl::MakeCTX())`, then
`EVP_DigestInit_ex(_ctx, HashCreator(), nullptr)` with `ASSERT(result == 1)`;
`_digest` keeps its default member initializer `{ }`. -/
def GenericHash.construct (P : HashParams) : Except FatalAssert GenericHash :=
  let ctx0 := GenericHashImpl.MakeCTX
  let r := EVP_DigestInit_ex P.HashCreator ctx0
  if r.2 = 1 then
    Except.ok { _ctx := r.1, _digest := zeroDigest P }
  else
    Except.error FatalAssert.assertFailed

/-- `UpdateData(uint8 const* data, size_t len)` (the byte sequence `data`):
`EVP_DigestUpdate(_ctx, data, len)` with `ASSERT(result == 1)`.  The
`std::string_view`, `std::string` and container overloads all forward to this
with the same bytes. -/
def GenericHash.UpdateData (h : GenericHash) (data : List Byte) :
    Except FatalAssert GenericHash :=
  let r := EVP_DigestUpdate h._ctx data
  if r.2 = 1 then
    Except.ok { h with _ctx := r.1 }
  else
    Except.error FatalAssert.assertFailed

/-- `UpdateData(std::string_view str)`: feeds the view's bytes unchanged. -/
def GenericHash.UpdateData_sv (h : GenericHash) (sv : List Byte) :
    Except FatalAssert GenericHash :=
  h.UpdateData sv

/-- The bytes denoted by a NUL-terminated `char const*`: the constructor
`std::string_view(str)` measures `strlen(str)`, i.e. takes the bytes strictly
before the first NUL of the underlying buffer. -/
def cstringBytes (buf : List Byte) : List Byte :=
  buf.takeWhile (fun b => b != 0)

/-- `UpdateData(char const* str)`: `UpdateData(std::string_view(str))`. -/
def GenericHash.UpdateData_cstr (h : GenericHash) (buf : List Byte) :
    Except FatalAssert GenericHash :=
  h.UpdateData_sv (cstringBytes buf)

/-- `Finalize()`: `EVP_DigestFinal_ex(_ctx, _digest.data(), &length)` with
`ASSERT(result == 1)` then `ASSERT(length == DIGEST_LENGTH)`. -/
def GenericHash.Finalize (h : GenericHash) (P : HashParams) :
    Except FatalAssert GenericHash :=
  let f := EVP_DigestFinal_ex h._ctx
  if f.result = 1 then
    if f.len = P.DIGEST_LENGTH then
      Except.ok { _ctx := f.ctx, _digest := f.out }
    else
      Except.error FatalAssert.assertFailed
  else
    Except.error FatalAssert.assertFailed

/-- `GetDigest() const`: read-only access to the stored digest. -/
def GenericHash.GetDigest (h : GenericHash) : List Byte :=
  h._digest

/-- `operator=(GenericHash const& right)` on distinct objects:
`EVP_MD_CTX_copy_ex(_ctx, right._ctx)` with `ASSERT(result == 1)`, then
`_digest = right._digest`. -/
def GenericHash.copyAssign (dst src : GenericHash) : Except FatalAssert GenericHash :=
  let r := EVP_MD_CTX_copy_ex dst._ctx src._ctx
  if r.2 = 1 then
    Except.ok { _ctx := r.1, _digest := src._digest }
  else
    Except.error FatalAssert.assertFailed

/-- `operator=(GenericHash const& right)` including the aliasing guard
`if (this == &right) return *this;`.  `isSelf` is the pointer-identity test;
when it holds, `dst` and `src` denote the same object. -/
def GenericHash.copyAssignFull (dst src : GenericHash) (isSelf : Bool) :
    Except FatalAssert GenericHash :=
  if isSelf then Except.ok dst else dst.copyAssign src

/-- `GenericHash(GenericHash const& right)`: member-initializes
`_ctx(GenericHashImpl::MakeCTX())` (and `_digest` to `{ }`), then performs
`*this = right`; a freshly constructed object is never `&right`, so this is
the non-aliased assignment. -/
def GenericHash.copyConstruct (P : HashParams) (src : GenericHash) :
    Except FatalAssert GenericHash :=
  GenericHash.copyAssign { _ctx := GenericHashImpl.MakeCTX, _digest := zeroDigest P } src

/-- `operator=(GenericHash&& right)` including the aliasing guard: on
distinct objects, `_ctx = std::exchange(right._ctx,
GenericHashImpl::MakeCTX())` and `_digest = std::exchange(right._digest,
Digest{})`.  Returns the pair (destination after, source after).  Note that
the source is left with a freshly ALLOCATED context (`EVP_MD_CTX_new`), on
which no `EVP_DigestInit_ex` is performed. -/
def GenericHash.moveAssignFull (P : HashParams) (dst src : GenericHash) (isSelf : Bool) :
    GenericHash × GenericHash :=
  if isSelf then (dst, src)
  else ({ _ctx := src._ctx, _digest := src._digest },
        { _ctx := GenericHashImpl.MakeCTX, _digest := zeroDigest P })

/-- `GenericHash(GenericHash&& right)`: performs `*this = std::move(right)`;
the fresh object is never `&right`.  (The destination's `_ctx` member is
uninitialized garbage before the assignment overwrites it; its value is
irrelevant and stands in as `MakeCTX` here.) -/
def GenericHash.moveConstruct (P : HashParams) (src : GenericHash) :
    GenericHash × GenericHash :=
  GenericHash.moveAssignFull P
    { _ctx := GenericHashImpl.MakeCTX, _digest := zeroDigest P } src false

/-- The fold expression `(hash.UpdateData(std::forward<Ts>(pack)), ...)`, and
generally any sequence of `UpdateData` calls applied in order. -/
def GenericHash.runUpdates (h : GenericHash) (pack : List (List Byte)) :
    Except FatalAssert GenericHash :=
  match pack with
  | [] => Except.ok h
  | item :: more =>
    (h.UpdateData item).bind fun h2 => h2.runUpdates more

/-- `static Digest GetDigestOf(uint8 const* data, size_t len)`: fresh
context, one update, finalize, return the digest. -/
def GenericHash.GetDigestOf (P : HashParams) (data : List Byte) :
    Except FatalAssert (List Byte) :=
  ((GenericHash.construct P).bind fun hash =>
    (hash.UpdateData data).bind fun hash2 =>
      (hash2.Finalize P)).map GenericHash.GetDigest

/-- `static Digest GetDigestOf(Ts&&... pack)` (the variadic overload): fresh
context, one `UpdateData` per pack item in argument order, one finalize,
return the digest.  Each item is represented by its byte rendering. -/
def GenericHash.GetDigestOfPack (P : HashParams) (pack : List (List Byte)) :
    Except FatalAssert (List Byte) :=
  ((GenericHash.construct P).bind fun hash =>
    (hash.runUpdates pack).bind fun hash2 =>
      (hash2.Finalize P)).map GenericHash.GetDigest

end Impl

/-- Modelled from the spec: the digest-length constants of
`CryptoConstants.h`, which is not under src/; the spec fixes the lengths at
MD5 = 16, SHA-1 = 20, SHA-256 = 32, SHA-512 = 64 bytes. -/
def Constants.MD5_DIGEST_LENGTH_BYTES : Nat := 16

/-- Modelled from the spec: SHA-1 digest length in bytes. -/
def Constants.SHA1_DIGEST_LENGTH_BYTES : Nat := 20

/-- Modelled from the spec: SHA-256 digest length in bytes. -/
def Constants.SHA256_DIGEST_LENGTH_BYTES : Nat := 32

/-- Modelled from the spec: SHA-512 digest length in bytes. -/
def Constants.SHA512_DIGEST_LENGTH_BYTES : Nat := 64

namespace Crypto

/-- `using MD5 = GenericHash<EVP_md5, Constants::MD5_DIGEST_LENGTH_BYTES>`;
`EVP_md5()` is the black-box MD5 algorithm identity. -/
def MD5 (EVP_md5 : EVP_MD) : Impl.HashParams :=
  ⟨EVP_md5, Constants.MD5_DIGEST_LENGTH_BYTES⟩

/-- `using SHA1 = GenericHash<EVP_sha1, Constants::SHA1_DIGEST_LENGTH_BYTES>`. -/
def SHA1 (EVP_sha1 : EVP_MD) : Impl.HashParams :=
  ⟨EVP_sha1, Constants.SHA1_DIGEST_LENGTH_BYTES⟩

/-- `using SHA256 = GenericHash<EVP_sha256, Constants::SHA256_DIGEST_LENGTH_BYTES>`. -/
def SHA256 (EVP_sha256 : EVP_MD) : Impl.HashParams :=
  ⟨EVP_sha256, Constants.SHA256_DIGEST_LENGTH_BYTES⟩

/-- `using SHA512 = GenericHash<EVP_sha512, Constants::SHA512_DIGEST_LENGTH_BYTES>`. -/
def SHA512 (EVP_sha512 : EVP_MD) : Impl.HashParams :=
  ⟨EVP_sha512, Constants.SHA512_DIGEST_LENGTH_BYTES⟩

end Crypto

/-- The fragment of C++ types relevant to the variadic `GetDigestOf`
overload's constraint: the standard integral types and representative
non-integral byte-like argument types. -/
inductive CppType where
  | boolTy | charTy | int8Ty | uint8Ty | int16Ty | uint16Ty
  | int32Ty | uint32Ty | int64Ty | uint64Ty
  | stringTy | stringViewTy | charPtrTy | byteContainerTy | bigNumberTy
deriving DecidableEq, Repr

/-- `std::is_integral_v<T>` on the modelled type fragment. -/
def std_is_integral : CppType → Bool
  | .boolTy | .charTy | .int8Ty | .uint8Ty | .int16Ty | .uint16Ty
  | .int32Ty | .uint32Ty | .int64Ty | .uint64Ty => true
  | _ => false

/-- The SFINAE condition of the variadic overload:
`std::enable_if_t<std::conjunction_v<std::negation<std::is_integral<Ts>>...>, int32>`.
The overload participates in resolution for an argument pack with types `ts`
exactly when this evaluates to `true`. -/
def variadicGetDigestOfEnabled (ts : List CppType) : Bool :=
  ts.all fun t => ! std_is_integral t

end Trinity

namespace Trinity

open Impl

/-- A concrete sample algorithm identity used to instantiate theorems with
hypotheses: its digest is always 32 bytes and depends on the whole message
length, so it distinguishes accumulation histories of different lengths. -/
def sampleMD : EVP_MD :=
  ⟨fun m => List.replicate 32 (UInt8.ofNat m.length)⟩

/-- Sample template parameters: `sampleMD` with declared digest length 32. -/
def sampleP : HashParams :=
  ⟨sampleMD, 32⟩

/-- The freshly constructed context for `sampleP` (initialized engine, empty
accumulation, zero digest). -/
def sampleHash : GenericHash :=
  ⟨.ready sampleMD [], List.replicate 32 0⟩

/-- A moved-from context: freshly allocated, never initialized engine, zero
digest. -/
def movedFromHash : GenericHash :=
  ⟨.uninit, List.replicate 32 0⟩

/-- C2: calling `UpdateData(A)` then `UpdateData(B)` on any context and then
`Finalize()` yields the same digest as one `UpdateData` call on the
concatenation `A ++ B` followed by `Finalize()`. -/
theorem c2_updateData_concat (P : HashParams) (s : GenericHash) (A B : List Byte) :
    ((s.UpdateData A).bind fun h => (h.UpdateData B).bind fun h2 =>
        h2.Finalize P).map GenericHash.GetDigest
      = ((s.UpdateData (A ++ B)).bind fun h => h.Finalize P).map GenericHash.GetDigest := by
  obtain ⟨ctx, dg⟩ := s
  cases ctx with
  | uninit => rfl
  | ready md acc =>
    simp [GenericHash.UpdateData, EVP_DigestUpdate, GenericHash.Finalize,
      EVP_DigestFinal_ex, Except.bind, Except.map, List.append_assoc]

/-- C3: the variadic one-shot `GetDigestOf(x, y, z)` applies `UpdateData`
once per item in argument order and finalizes once, and equals `GetDigestOf`
of the byte-wise concatenation `x ++ y ++ z`. -/
theorem c3_getDigestOf_pack_concat (P : HashParams) (x y z : List Byte) :
    GenericHash.GetDigestOfPack P [x, y, z] = GenericHash.GetDigestOf P (x ++ y ++ z) := by
  simp [GenericHash.GetDigestOfPack, GenericHash.GetDigestOf, GenericHash.construct,
    GenericHashImpl.MakeCTX, EVP_DigestInit_ex, GenericHash.runUpdates,
    GenericHash.UpdateData, EVP_DigestUpdate, Except.bind, Except.map,
    List.append_assoc]

/-- C9: with the aliasing guard `if (this == &right) return *this;`,
self-assignment (copy or move) leaves the object's engine state and stored
digest exactly unchanged. -/
theorem c9_self_assignment_noop (P : HashParams) (s : GenericHash) :
    GenericHash.copyAssignFull s s true = Except.ok s ∧
    GenericHash.moveAssignFull P s s true = (s, s) := by
  exact ⟨rfl, rfl⟩

/-- C1 (counterexample): immediately finalizing the moved-from context does
NOT yield the empty-input digest of its algorithm: moving leaves the source
holding an engine context that was allocated by `EVP_MD_CTX_new` but never
passed to `EVP_DigestInit_ex`, so `Finalize()` hits the fatal assertion
instead. -/
theorem c1_move_counterexample :
    ((GenericHash.moveAssignFull sampleP sampleHash sampleHash false).2.Finalize
        sampleP).map GenericHash.GetDigest
      ≠ Except.ok (sampleMD.hash []) := by
  intro h
  simp [GenericHash.moveAssignFull, GenericHash.Finalize, EVP_DigestFinal_ex,
    GenericHashImpl.MakeCTX, Except.map] at h

/-- C1 (amended): moving transfers the engine state and stored digest to the
destination wholesale; the moved-from object is left holding a freshly
allocated but uninitialized engine context and the zero digest.  It is safely
destructible, but it is not a fresh usable context: both an immediate
`UpdateData` and an immediate `Finalize` on it hit the fatal engine-failure
assertion rather than accumulating or yielding the empty-input digest. -/
theorem c1_move_amended (P : HashParams) (dst src : GenericHash) (A : List Byte) :
    (GenericHash.moveAssignFull P dst src false).1 = src ∧
    (GenericHash.moveAssignFull P dst src false).2._ctx = GenericHashImpl.MakeCTX ∧
    (GenericHash.moveAssignFull P dst src false).2.GetDigest = zeroDigest P ∧
    (GenericHash.moveAssignFull P dst src false).2.UpdateData A
      = Except.error FatalAssert.assertFailed ∧
    (GenericHash.moveAssignFull P dst src false).2.Finalize P
      = Except.error FatalAssert.assertFailed := by
  exact ⟨rfl, rfl, rfl, rfl, rfl⟩

end Trinity

namespace Trinity

open Impl

/-- A sequence of `UpdateData` calls on an initialized context always
succeeds and appends the items' bytes, in order, to the accumulation. -/
theorem GenericHash.runUpdates_ready (md : EVP_MD) (us : List (List Byte))
    (acc dg : List Byte) :
    GenericHash.runUpdates ⟨.ready md acc, dg⟩ us
      = Except.ok ⟨.ready md (acc ++ us.flatten), dg⟩ := by
  induction us generalizing acc with
  | nil => simp [GenericHash.runUpdates]
  | cons u more ih =>
    simp [GenericHash.runUpdates, GenericHash.UpdateData, EVP_DigestUpdate,
      Except.bind, ih, List.append_assoc]

/-- C4: copy construction and copy assignment duplicate the entire
accumulated streaming state (via `EVP_MD_CTX_copy_ex`), not merely the
digest: applying any further `UpdateData` sequence to the copy and
finalizing yields the same digest as doing so to the original. -/
theorem c4_copy_duplicates_state (P : HashParams) (orig cpy dst cpy2 : GenericHash)
    (us : List (List Byte))
    (h1 : GenericHash.copyConstruct P orig = Except.ok cpy)
    (h2 : GenericHash.copyAssignFull dst orig false = Except.ok cpy2) :
    ((cpy.runUpdates us).bind fun h => h.Finalize P).map GenericHash.GetDigest
      = ((orig.runUpdates us).bind fun h => h.Finalize P).map GenericHash.GetDigest ∧
    ((cpy2.runUpdates us).bind fun h => h.Finalize P).map GenericHash.GetDigest
      = ((orig.runUpdates us).bind fun h => h.Finalize P).map GenericHash.GetDigest := by
  obtain ⟨octx, odg⟩ := orig
  cases octx with
  | uninit =>
    exact absurd h1 (by simp [GenericHash.copyConstruct, GenericHash.copyAssign,
      EVP_MD_CTX_copy_ex])
  | ready md acc =>
    have e1 : cpy = ⟨.ready md acc, odg⟩ := by
      have := h1
      simp [GenericHash.copyConstruct, GenericHash.copyAssign, EVP_MD_CTX_copy_ex] at this
      exact this.symm
    have e2 : cpy2 = ⟨.ready md acc, odg⟩ := by
      have := h2
      simp [GenericHash.copyAssignFull, GenericHash.copyAssign, EVP_MD_CTX_copy_ex] at this
      exact this.symm
    subst e1
    subst e2
    exact ⟨rfl, rfl⟩

/-- C4 witness: a concrete partially accumulated context, its copy, one more
update on each, identical digests. -/
theorem c4_witness :
    (((⟨.ready sampleMD [5], List.replicate 32 0⟩ : GenericHash).runUpdates [[6]]).bind
        fun h => h.Finalize sampleP).map GenericHash.GetDigest
      = (((⟨.ready sampleMD [5], List.replicate 32 0⟩ : GenericHash).runUpdates [[6]]).bind
        fun h => h.Finalize sampleP).map GenericHash.GetDigest ∧
    (((⟨.ready sampleMD [5], List.replicate 32 0⟩ : GenericHash).runUpdates [[6]]).bind
        fun h => h.Finalize sampleP).map GenericHash.GetDigest
      = (((⟨.ready sampleMD [5], List.replicate 32 0⟩ : GenericHash).runUpdates [[6]]).bind
        fun h => h.Finalize sampleP).map GenericHash.GetDigest :=
  c4_copy_duplicates_state sampleP ⟨.ready sampleMD [5], List.replicate 32 0⟩
    ⟨.ready sampleMD [5], List.replicate 32 0⟩ movedFromHash
    ⟨.ready sampleMD [5], List.replicate 32 0⟩ [[6]] rfl rfl

/-- C5: engine failures and digest-length mismatches are never surfaced as
ordinary error values: a failing `EVP_DigestUpdate` or `EVP_DigestFinal_ex`
result code, or a final length differing from `DIGEST_LENGTH`, makes the
operation halt with the fatal assertion, and a successful `Finalize` (or
construction) certifies that the engine reported success and the length
matched. -/
theorem c5_failures_are_fatal (P : HashParams) (s : GenericHash) (data : List Byte) :
    (∀ hc, GenericHash.construct P = Except.ok hc →
      (EVP_DigestInit_ex P.HashCreator GenericHashImpl.MakeCTX).2 = 1) ∧
    ((EVP_DigestUpdate s._ctx data).2 ≠ 1 →
      s.UpdateData data = Except.error FatalAssert.assertFailed) ∧
    ((EVP_DigestFinal_ex s._ctx).result ≠ 1 ∨ (EVP_DigestFinal_ex s._ctx).len ≠ P.DIGEST_LENGTH →
      s.Finalize P = Except.error FatalAssert.assertFailed) ∧
    (∀ hf, s.Finalize P = Except.ok hf →
      (EVP_DigestFinal_ex s._ctx).result = 1 ∧
      (EVP_DigestFinal_ex s._ctx).len = P.DIGEST_LENGTH) := by
  obtain ⟨ctx, dg⟩ := s
  refine ⟨fun hc _ => rfl, ?_, ?_, ?_⟩
  · intro hne
    cases ctx with
    | uninit => rfl
    | ready md acc => exact absurd rfl hne
  · intro hor
    cases ctx with
    | uninit => rfl
    | ready md acc =>
      rcases hor with hr | hl
      · exact absurd rfl hr
      · simp [GenericHash.Finalize, EVP_DigestFinal_ex] at hl ⊢
        simp [hl]
  · intro hf h
    cases ctx with
    | uninit => exact Except.noConfusion h
    | ready md acc =>
      refine ⟨rfl, ?_⟩
      by_cases hlen : (EVP_DigestFinal_ex (EVPCtxState.ready md acc)).len = P.DIGEST_LENGTH
      · exact hlen
      · exact absurd h (by simp [GenericHash.Finalize, hlen])

/-- C5 witness: on a never-initialized engine context the update and
finalize result codes are not 1, and both operations halt with the fatal
assertion; a successful construction certifies the init result code 1. -/
theorem c5_witness :
    movedFromHash.UpdateData [1] = Except.error FatalAssert.assertFailed ∧
    movedFromHash.Finalize sampleP = Except.error FatalAssert.assertFailed ∧
    (EVP_DigestInit_ex sampleMD GenericHashImpl.MakeCTX).2 = 1 :=
  ⟨(c5_failures_are_fatal sampleP movedFromHash [1]).2.1 (by decide),
   (c5_failures_are_fatal sampleP movedFromHash [1]).2.2.1 (Or.inl (by decide)),
   (c5_failures_are_fatal sampleP movedFromHash [1]).1 sampleHash rfl⟩

/-- C6: for every byte sequence, the one-shot digest of each of the four
instantiations has exactly the declared length: MD5 16 bytes, SHA-1 20,
SHA-256 32, SHA-512 64 (given that the black-box algorithm produces digests
of its published length). -/
theorem c6_digest_lengths (emd5 esha1 esha256 esha512 : EVP_MD) (x : List Byte)
    (hm : ∀ m, (emd5.hash m).length = Constants.MD5_DIGEST_LENGTH_BYTES)
    (h1 : ∀ m, (esha1.hash m).length = Constants.SHA1_DIGEST_LENGTH_BYTES)
    (h2 : ∀ m, (esha256.hash m).length = Constants.SHA256_DIGEST_LENGTH_BYTES)
    (h3 : ∀ m, (esha512.hash m).length = Constants.SHA512_DIGEST_LENGTH_BYTES) :
    (GenericHash.GetDigestOf (Crypto.MD5 emd5) x).map List.length = Except.ok 16 ∧
    (GenericHash.GetDigestOf (Crypto.SHA1 esha1) x).map List.length = Except.ok 20 ∧
    (GenericHash.GetDigestOf (Crypto.SHA256 esha256) x).map List.length = Except.ok 32 ∧
    (GenericHash.GetDigestOf (Crypto.SHA512 esha512) x).map List.length = Except.ok 64 := by
  refine ⟨?_, ?_, ?_, ?_⟩ <;>
    simp [GenericHash.GetDigestOf, GenericHash.construct, EVP_DigestInit_ex,
      GenericHashImpl.MakeCTX, GenericHash.UpdateData, EVP_DigestUpdate,
      GenericHash.Finalize, EVP_DigestFinal_ex, GenericHash.GetDigest,
      Crypto.MD5, Crypto.SHA1, Crypto.SHA256, Crypto.SHA512,
      Constants.MD5_DIGEST_LENGTH_BYTES, Constants.SHA1_DIGEST_LENGTH_BYTES,
      Constants.SHA256_DIGEST_LENGTH_BYTES, Constants.SHA512_DIGEST_LENGTH_BYTES,
      Except.bind, Except.map, hm, h1, h2, h3]

/-- C6 witness: concrete black-box algorithms of the published lengths and a
concrete input byte sequence. -/
theorem c6_witness :
    (GenericHash.GetDigestOf (Crypto.MD5 ⟨fun _ => List.replicate 16 0⟩) [97]).map
        List.length = Except.ok 16 ∧
    (GenericHash.GetDigestOf (Crypto.SHA1 ⟨fun _ => List.replicate 20 0⟩) [97]).map
        List.length = Except.ok 20 ∧
    (GenericHash.GetDigestOf (Crypto.SHA256 ⟨fun _ => List.replicate 32 0⟩) [97]).map
        List.length = Except.ok 32 ∧
    (GenericHash.GetDigestOf (Crypto.SHA512 ⟨fun _ => List.replicate 64 0⟩) [97]).map
        List.length = Except.ok 64 :=
  c6_digest_lengths ⟨fun _ => List.replicate 16 0⟩ ⟨fun _ => List.replicate 20 0⟩
    ⟨fun _ => List.replicate 32 0⟩ ⟨fun _ => List.replicate 64 0⟩ [97]
    (fun _ => rfl) (fun _ => rfl) (fun _ => rfl) (fun _ => rfl)

/-- C7: `GetDigest()` is a read-only accessor of the stored digest; on any
context reached by construction plus updates (no finalize) it returns the
default all-zero digest, and after a finalize it returns the algorithm's
digest of all bytes fed so far. -/
theorem c7_getDigest_lifecycle (P : HashParams) (us : List (List Byte)) (s : GenericHash)
    (h : (GenericHash.construct P).bind (fun h0 => h0.runUpdates us) = Except.ok s)
    (hlen : (P.HashCreator.hash us.flatten).length = P.DIGEST_LENGTH) :
    s.GetDigest = zeroDigest P ∧
    (s.Finalize P).map GenericHash.GetDigest = Except.ok (P.HashCreator.hash us.flatten) := by
  simp [GenericHash.construct, EVP_DigestInit_ex, GenericHashImpl.MakeCTX,
    Except.bind, GenericHash.runUpdates_ready] at h
  subst h
  refine ⟨rfl, ?_⟩
  simp [GenericHash.Finalize, EVP_DigestFinal_ex, Except.map, GenericHash.GetDigest, hlen]

/-- C7 witness: after constructing and feeding the updates `[1]` then `[2]`,
the stored digest is still all zeroes, and finalizing yields the digest of
the concatenated bytes. -/
theorem c7_witness :
    (⟨.ready sampleMD [1, 2], List.replicate 32 0⟩ : GenericHash).GetDigest
      = zeroDigest sampleP ∧
    ((⟨.ready sampleMD [1, 2], List.replicate 32 0⟩ : GenericHash).Finalize sampleP).map
      GenericHash.GetDigest = Except.ok (sampleP.HashCreator.hash [[1], [2]].flatten) :=
  c7_getDigest_lifecycle sampleP [[1], [2]]
    ⟨.ready sampleMD [1, 2], List.replicate 32 0⟩ rfl (by decide)

/-- C8: the variadic `GetDigestOf` overload participates in overload
resolution exactly when no argument type is integral: a pack containing a
plain integral type disables it (rejected at the interface), and an
all-non-integral pack enables it. -/
theorem c8_integral_rejected (ts : List CppType) :
    ((∃ t ∈ ts, std_is_integral t = true) → variadicGetDigestOfEnabled ts = false) ∧
    ((∀ t ∈ ts, std_is_integral t = false) → variadicGetDigestOfEnabled ts = true) := by
  constructor
  · rintro ⟨t, ht, hint⟩
    simp only [variadicGetDigestOfEnabled]
    rw [List.all_eq_false]
    exact ⟨t, ht, by simp [hint]⟩
  · intro hall
    simp only [variadicGetDigestOfEnabled]
    rw [List.all_eq_true]
    intro t ht
    simp [hall t ht]

/-- C8 witness: a pack containing `uint32` is rejected; a pack of byte-like
types is accepted. -/
theorem c8_witness :
    variadicGetDigestOfEnabled [CppType.uint32Ty, CppType.stringViewTy] = false ∧
    variadicGetDigestOfEnabled [CppType.stringViewTy, CppType.stringTy] = true :=
  ⟨(c8_integral_rejected [CppType.uint32Ty, CppType.stringViewTy]).1
      ⟨CppType.uint32Ty, by decide, by decide⟩,
   (c8_integral_rejected [CppType.stringViewTy, CppType.stringTy]).2 (by decide)⟩

/-- The `std::string_view(char const*)` conversion keeps exactly the bytes
before the first NUL of the buffer. -/
theorem cstringBytes_append_nul (pre rest : List Byte) (h : (0 : Byte) ∉ pre) :
    cstringBytes (pre ++ (0 : Byte) :: rest) = pre := by
  induction pre with
  | nil => simp [cstringBytes, List.takeWhile]
  | cons a as ih =>
    have ha : (a != 0) = true := by
      simp only [bne_iff_ne, ne_eq]
      intro e
      exact h (by simp [e])
    have h' : (0 : Byte) ∉ as := fun hm => h (List.mem_cons_of_mem _ hm)
    simp [cstringBytes, List.takeWhile, ha] at ih ⊢
    exact ih h'

/-- C10: feeding a NUL-terminated C string hashes exactly the bytes before
the terminator and not the terminator itself: `UpdateData(char const*)` on a
buffer `pre ++ 0 :: rest` (with no NUL in `pre`) equals `UpdateData` on the
byte sequence `pre` of length `strlen`. -/
theorem c10_cstring_strlen (s : GenericHash) (pre rest : List Byte)
    (h : (0 : Byte) ∉ pre) :
    s.UpdateData_cstr (pre ++ (0 : Byte) :: rest) = s.UpdateData pre := by
  unfold GenericHash.UpdateData_cstr GenericHash.UpdateData_sv
  rw [cstringBytes_append_nul pre rest h]

/-- C10 witness: the buffer "ab\0c" hashes exactly the two bytes "ab". -/
theorem c10_witness :
    sampleHash.UpdateData_cstr [97, 98, 0, 99] = sampleHash.UpdateData [97, 98] :=
  c10_cstring_strlen sampleHash [97, 98] [99] (by decide)

end Trinity
